import Mathlib

/-!
Shallow embedding of `src/p5-api-reverse-engineering/scripts/test-upload.py`,
a smoke-test client for the p5.js Web Editor REST API, together with theorems
settling the specification claims about it.

Modelling conventions:
* Python `print` statements become entries of a `LogLine` list; the two lines
  emitted by the request wrapper `_request` get their own structured
  constructors (`requestLine`, `statusLine`, `requestFailedLine`) since the
  claims speak about them; every other print is a `text` line carrying the
  formatted string.
* The network is an oracle: each operation receives the `TransportResult`
  (a delivered `Response`, or a transport-level failure) that the single HTTP
  call it makes would observe.  Every dispatched call is recorded as a
  `NetCall`.
* Python exceptions become the `PyError` type threaded through `Except`.
* `requests.Session.request` returns the response for any delivered HTTP
  status and raises only transport errors (`RequestException`); HTTP statuses
  raise only via `Response.raise_for_status`, which fires exactly for
  400–599.  Both behaviours of the `requests` library are embedded below.
-/

namespace TestUpload

/-- UTF-8 encoding of a single character (mirrors Python `str.encode('utf-8')`). -/
def utf8EncodeChar (c : Char) : List Nat :=
  let n := c.toNat
  if n < 128 then [n]
  else if n < 2048 then [192 + n / 64, 128 + n % 64]
  else if n < 65536 then [224 + n / 4096, 128 + n / 64 % 64, 128 + n % 64]
  else [240 + n / 262144, 128 + n / 4096 % 64, 128 + n / 64 % 64, 128 + n % 64]

/-- UTF-8 encoding of a character list. -/
def utf8Bytes : List Char → List Nat
  | [] => []
  | c :: cs => utf8EncodeChar c ++ utf8Bytes cs

/-- The base64 alphabet. -/
def base64Chars : String :=
  "ABCDEFGHIJKLMNOPQRSTUVWXYZabcdefghijklmnopqrstuvwxyz0123456789+/"

/-- The base64 digit for a 6-bit value. -/
def b64Char (n : Nat) : Char := base64Chars.toList.getD n 'A'

/-- RFC 4648 base64 of a byte list (mirrors Python `base64.b64encode`). -/
def b64encodeBytes : List Nat → String
  | [] => ""
  | [a] => String.mk [b64Char (a / 4), b64Char (a % 4 * 16)] ++ "=="
  | [a, b] =>
      String.mk [b64Char (a / 4), b64Char (a % 4 * 16 + b / 16), b64Char (b % 16 * 4)] ++ "="
  | a :: b :: c :: rest =>
      String.mk [b64Char (a / 4), b64Char (a % 4 * 16 + b / 16),
        b64Char (b % 16 * 4 + c / 64), b64Char (c % 64)] ++ b64encodeBytes rest

/-- Base64 of the UTF-8 bytes of a string: `base64.b64encode(s.encode('utf-8'))`. -/
def b64encode (s : String) : String := b64encodeBytes (utf8Bytes s.toList)

/-- Python truthiness of an `Optional[str]`: `None` and `""` are falsy. -/
def pyTruthy : Option String → Bool
  | none => false
  | some s => s != ""

/-- Rendering of an `Optional[str]` by a Python f-string: `None` prints as "None". -/
def pyStr : Option String → String
  | none => "None"
  | some s => s

/-- Python `str.upper()` for the ASCII method names the script uses. -/
def pyUpper (s : String) : String := String.mk (s.toList.map Char.toUpper)

end TestUpload

namespace TestUpload

/-- A console line produced by a `print` statement.  The two lines of the
request wrapper `_request` and its failure line are kept structured because
the claims quantify over them; all other prints are `text`. -/
inductive LogLine
  /-- The wrapper progress line `📤 {method.upper()} {endpoint}`. -/
  | requestLine (method endpoint : String)
  /-- The wrapper outcome line `✅ {response.status_code} {response.reason}`. -/
  | statusLine (status : Nat) (reason : String)
  /-- The wrapper failure line `❌ Request failed: {e}`. -/
  | requestFailedLine (msg : String)
  /-- Any other print, carrying the formatted text. -/
  | text (s : String)
deriving DecidableEq, Repr

/-- Whether a log line is the wrapper progress line (method + endpoint). -/
def LogLine.isRequest : LogLine → Bool
  | .requestLine _ _ => true
  | _ => false

/-- Whether a log line is the wrapper outcome line (status code + reason). -/
def LogLine.isStatus : LogLine → Bool
  | .statusLine _ _ => true
  | _ => false

/-- Whether a log line is the wrapper transport-failure detail line. -/
def LogLine.isFailDetail : LogLine → Bool
  | .requestFailedLine _ => true
  | _ => false

/-- Whether a log line is any of the three wrapper lines: the progress line,
the status outcome line, or the error-detail outcome line. -/
def LogLine.isWrapper (l : LogLine) : Bool :=
  l.isRequest || l.isStatus || l.isFailDetail

/-- A Python exception relevant to the script. -/
inductive PyError
  /-- Exception `requests.exceptions.HTTPError` raised by `raise_for_status`,
  carrying status code, reason text and url. -/
  | httpError (status : Nat) (reason : String) (url : String)
  /-- A transport-level `requests.exceptions.RequestException`
  raised by `Session.request` / `requests.get`. -/
  | requestException (msg : String)
  /-- Exception `KeyError` from indexing a dict with a missing key. -/
  | keyError (key : String)
deriving DecidableEq, Repr

/-- Rendering `str(e)` for the exceptions above, following the `requests` message
format for `HTTPError` and Python's `repr`-style `KeyError`. -/
def PyError.message : PyError → String
  | .httpError status reason url =>
      if status < 500 then
        toString status ++ " Client Error: " ++ reason ++ " for url: " ++ url
      else
        toString status ++ " Server Error: " ++ reason ++ " for url: " ++ url
  | .requestException m => m
  | .keyError k => "\x27" ++ k ++ "\x27"

/-- An HTTP response as delivered by the `requests` library, with `body`
standing for what `response.json()` would decode to and `setCookies` for the
cookies its `Set-Cookie` headers carry ((name, value, domain) triples). -/
structure Response (β : Type) where
  status : Nat
  reason : String
  url : String
  body : β
  setCookies : List (String × String × String)
deriving DecidableEq, Repr

/-- The outcome of dispatching one HTTP call: a delivered response, or a
transport failure (`requests.exceptions.RequestException`). -/
inductive TransportResult (β : Type)
  | response (r : Response β)
  | failure (msg : String)
deriving DecidableEq, Repr

/-- Whether a network outcome delivers no `Set-Cookie` header (a transport
failure delivers no response at all). -/
def TransportResult.setCookieFree {β : Type} : TransportResult β → Prop
  | .response r => r.setCookies = []
  | .failure _ => True

/-- One step of the `requests` cookie-jar update: a response cookie
overwrites the jar entry with the same name and domain, or is appended. -/
def setCookieInJar (jar : List (String × String × String))
    (ck : String × String × String) : List (String × String × String) :=
  if jar.any (fun e => e.1 == ck.1 && e.2.2 == ck.2.2) then
    jar.map (fun e => if e.1 == ck.1 && e.2.2 == ck.2.2 then ck else e)
  else jar ++ [ck]

/-- The `requests` library's `extract_cookies_to_jar`, called by
`Session.send` on every delivered response: the response's `Set-Cookie`
cookies are persisted into the session's cookie jar. -/
def extract_cookies_to_jar (jar : List (String × String × String))
    (setCookies : List (String × String × String)) : List (String × String × String) :=
  setCookies.foldl setCookieInJar jar

/-- A dispatched HTTP call (method and full url); request payloads ride in
the call's keyword arguments and influence only the oracle's response. -/
structure NetCall where
  method : String
  url : String
deriving DecidableEq, Repr

/-- The `requests` library's `Response.raise_for_status`: raises an
`HTTPError` for 4xx (client error) and 5xx (server error) statuses and
returns normally for every other status. -/
def raise_for_status {β : Type} (r : Response β) : Except PyError Unit :=
  if 400 ≤ r.status ∧ r.status < 500 then
    .error (.httpError r.status r.reason r.url)
  else if 500 ≤ r.status ∧ r.status < 600 then
    .error (.httpError r.status r.reason r.url)
  else
    .ok ()

end TestUpload

namespace TestUpload

/-- The mutable state of a `requests.Session` the script touches: default
headers and the cookie jar (name, value, domain triples). -/
structure Session where
  headers : List (String × String)
  cookies : List (String × String × String)
deriving DecidableEq, Repr

/-- Constant `API_BASE_URL`. -/
def API_BASE_URL : String := "https://editor.p5js.org/api"

/-- The API client: base url plus its `requests.Session`. -/
structure P5APIClient where
  base_url : String
  session : Session
deriving DecidableEq, Repr

/-- The two default headers `__init__` installs before authentication. -/
def baseHeaders : List (String × String) :=
  [("Content-Type", "application/json"),
   ("User-Agent", "p5-api-test-client-python/1.0")]

/-- Constructor `P5APIClient.__init__`: installs the default headers, then token auth
(`Authorization: Basic base64(username:token)`) when both username and
access token are truthy, else the `connect.sid` cookie when the session
cookie is truthy, else only a warning.  Returns the client and the printed
lines. -/
def P5APIClient.init (session_cookie username access_token : Option String) :
    P5APIClient × List LogLine :=
  let session0 : Session := { headers := baseHeaders, cookies := [] }
  if pyTruthy access_token && pyTruthy username then
    let auth_b64 := b64encode (username.getD "" ++ ":" ++ access_token.getD "")
    ({ base_url := API_BASE_URL,
       session := { session0 with
         headers := session0.headers ++ [("Authorization", "Basic " ++ auth_b64)] } },
     [.text "🔑 Using Token Authentication"])
  else if pyTruthy session_cookie then
    ({ base_url := API_BASE_URL,
       session := { session0 with
         cookies := [("connect.sid", session_cookie.getD "", "editor.p5js.org")] } },
     [.text "🔑 Using Session Cookie Authentication"])
  else
    ({ base_url := API_BASE_URL, session := session0 },
     [.text "⚠️  No authentication configured"])

/-- The outcome of one client operation: its Python return value or raised
exception, the printed lines, the HTTP calls dispatched, and the client
(`self`) as it stands after the call. -/
structure OpResult (α : Type) where
  result : Except PyError α
  log : List LogLine
  calls : List NetCall
  client : P5APIClient
deriving Repr

/-- Wrapper `P5APIClient._request`: builds the url, prints the progress line, then
dispatches via `self.session.request`.  A delivered response — whatever its
status — is returned after the status outcome line, and `Session.send`
persists its `Set-Cookie` cookies into the session jar
(`extract_cookies_to_jar`); `Session.request` raises only transport errors,
which are logged and re-raised without touching the session. -/
def P5APIClient.request {β : Type} (c : P5APIClient) (method endpoint : String)
    (net : TransportResult β) : OpResult (Response β) :=
  let url := c.base_url ++ endpoint
  let pre := [LogLine.requestLine (pyUpper method) endpoint]
  match net with
  | .response r =>
      { result := .ok r, log := pre ++ [.statusLine r.status r.reason],
        calls := [⟨method, url⟩],
        client := { c with session := { c.session with
          cookies := extract_cookies_to_jar c.session.cookies r.setCookies } } }
  | .failure m =>
      { result := .error (.requestException m),
        log := pre ++ [.requestFailedLine ("Request failed: " ++ m)],
        calls := [⟨method, url⟩], client := c }

/-- Method `P5APIClient.test_authentication`: probes `GET /auth/access-check` and
returns `True` on 200, `None` when a 404 `HTTPError` is caught, `False` on
any other outcome.  The `except HTTPError` arm mirrors the Python handler;
`_request` itself can only raise transport errors. -/
def P5APIClient.test_authentication (c : P5APIClient) (net : TransportResult Unit) :
    OpResult (Option Bool) :=
  let pre := [LogLine.text "\n🔍 Testing Authentication..."]
  let rq := c.request "GET" "/auth/access-check" net
  match rq.result with
  | .ok r =>
      if r.status == 200 then
        { result := .ok (some true), log := pre ++ rq.log ++ [.text "✅ Authentication successful!"],
          calls := rq.calls, client := rq.client }
      else
        { result := .ok (some false), log := pre ++ rq.log ++ [.text "❌ Authentication failed"],
          calls := rq.calls, client := rq.client }
  | .error e =>
      match e with
      | .httpError status _ _ =>
          if status == 404 then
            { result := .ok none,
              log := pre ++ rq.log ++ [.text "⚠️  Test endpoint not found (this is okay)"],
              calls := rq.calls, client := rq.client }
          else
            { result := .ok (some false), log := pre ++ rq.log ++ [.text "❌ Authentication failed"],
              calls := rq.calls, client := rq.client }
      | _ =>
          { result := .error e, log := pre ++ rq.log, calls := rq.calls, client := rq.client }

/-- One file of a sketch payload: `{"name": ..., "content": ..., "fileType": ...}`. -/
structure SketchFile where
  name : String
  content : String
  fileType : String
deriving DecidableEq, Repr

/-- A sketch payload dict.  `name` is `Option` because the claims consider
payloads whose dict lacks the `"name"` key; indexing it then raises
`KeyError`. -/
structure SketchData where
  name : Option String
  files : List SketchFile
deriving DecidableEq, Repr

/-- An owner object inside a project record (`{"username": ...}`); the
`username` key may be absent. -/
structure Owner where
  username : Option String
deriving DecidableEq, Repr

/-- A project record as the client reads it from a response body, each field
an `Option` since the client uses `dict.get` (and raises `KeyError` on the
one direct `project['id']` index when the key is absent). -/
structure Project where
  id : Option String
  name : Option String
  owner : Option Owner
  user : Option Owner
  createdAt : Option String
deriving DecidableEq, Repr

/-- Expression `owner = project.get('owner') or project.get('user', {})` followed by
`owner.get('username')`: both candidates are dicts here, so the
`isinstance(owner, dict)` test always takes the dict arm. -/
def Project.displayOwner (p : Project) : Option String :=
  ((p.owner).getD ((p.user).getD { username := none })).username

/-- Method `P5APIClient.create_sketch`: prints the name (raising `KeyError` when the
payload lacks one), POSTs `/projects`, `raise_for_status`, then prints the
project details and the sketch urls — the url f-string indexes
`project['id']` directly — and returns the decoded record. -/
def P5APIClient.create_sketch (c : P5APIClient) (sketch_data : SketchData)
    (net : TransportResult Project) : OpResult Project :=
  match sketch_data.name with
  | none => { result := .error (.keyError "name"), log := [], calls := [], client := c }
  | some nm =>
    let pre := [LogLine.text ("\n📝 Creating sketch: \"" ++ nm ++ "\"...")]
    let rq := c.request "POST" "/projects" net
    match rq.result with
    | .error e => { result := .error e, log := pre ++ rq.log, calls := rq.calls, client := rq.client }
    | .ok r =>
      match raise_for_status r with
      | .error e =>
          { result := .error e, log := pre ++ rq.log, calls := rq.calls, client := rq.client }
      | .ok _ =>
        let project := r.body
        let username := pyStr project.displayOwner
        let details :=
          [LogLine.text "✅ Sketch created successfully!",
           .text "\n📊 Project Details:",
           .text ("  ID: " ++ pyStr project.id),
           .text ("  Name: " ++ pyStr project.name),
           .text ("  Owner: " ++ username),
           .text ("  Created: " ++ pyStr project.createdAt)]
        match project.id with
        | none =>
            { result := .error (.keyError "id"), log := pre ++ rq.log ++ details,
              calls := rq.calls, client := rq.client }
        | some pid =>
            let urls :=
              [LogLine.text "\n🔗 Sketch URL:",
               .text ("   https://editor.p5js.org/" ++ username ++ "/sketches/" ++ pid),
               .text "\n🎨 Full View:",
               .text ("   https://editor.p5js.org/" ++ username ++ "/full/" ++ pid)]
            { result := .ok project, log := pre ++ rq.log ++ details ++ urls,
              calls := rq.calls, client := rq.client }

/-- Method `P5APIClient.get_project`: GETs `/projects/{project_id}`,
`raise_for_status`, returns the decoded record. -/
def P5APIClient.get_project (c : P5APIClient) (project_id : String)
    (net : TransportResult Project) : OpResult Project :=
  let pre := [LogLine.text ("\n🔍 Fetching project " ++ project_id ++ "...")]
  let rq := c.request "GET" ("/projects/" ++ project_id) net
  match rq.result with
  | .error e => { result := .error e, log := pre ++ rq.log, calls := rq.calls, client := rq.client }
  | .ok r =>
    match raise_for_status r with
    | .error e =>
        { result := .error e, log := pre ++ rq.log, calls := rq.calls, client := rq.client }
    | .ok _ =>
        { result := .ok r.body, log := pre ++ rq.log ++ [.text "✅ Project fetched successfully"],
          calls := rq.calls, client := rq.client }

/-- Method `P5APIClient.update_sketch`: PUTs `/projects/{project_id}` with the
updates payload, `raise_for_status`, returns the decoded record. -/
def P5APIClient.update_sketch (c : P5APIClient) (project_id : String)
    (updates : SketchData) (net : TransportResult Project) : OpResult Project :=
  let pre := [LogLine.text ("\n✏️  Updating sketch " ++ project_id ++ "...")]
  let rq := c.request "PUT" ("/projects/" ++ project_id) net
  match rq.result with
  | .error e => { result := .error e, log := pre ++ rq.log, calls := rq.calls, client := rq.client }
  | .ok r =>
    match raise_for_status r with
    | .error e =>
        { result := .error e, log := pre ++ rq.log, calls := rq.calls, client := rq.client }
    | .ok _ =>
        { result := .ok r.body, log := pre ++ rq.log ++ [.text "✅ Sketch updated successfully"],
          calls := rq.calls, client := rq.client }

/-- Method `P5APIClient.delete_sketch`: DELETEs `/projects/{project_id}`,
`raise_for_status`, returns `True`. -/
def P5APIClient.delete_sketch (c : P5APIClient) (project_id : String)
    (net : TransportResult Unit) : OpResult Bool :=
  let pre := [LogLine.text ("\n🗑️  Deleting sketch " ++ project_id ++ "...")]
  let rq := c.request "DELETE" ("/projects/" ++ project_id) net
  match rq.result with
  | .error e => { result := .error e, log := pre ++ rq.log, calls := rq.calls, client := rq.client }
  | .ok r =>
    match raise_for_status r with
    | .error e =>
        { result := .error e, log := pre ++ rq.log, calls := rq.calls, client := rq.client }
    | .ok _ =>
        { result := .ok true, log := pre ++ rq.log ++ [.text "✅ Sketch deleted successfully"],
          calls := rq.calls, client := rq.client }

/-- A sketch summary from the public listing endpoint; the display loop
indexes `'name'`, `'id'` and `'updatedAt'` directly. -/
structure Sketch where
  name : String
  id : String
  updatedAt : String
deriving DecidableEq, Repr

/-- The numbered display lines for `enumerate(sketches[:5], 1)`. -/
def sketchLines : Nat → List Sketch → List LogLine
  | _, [] => []
  | i, s :: rest =>
      LogLine.text ("\n  " ++ toString i ++ ". " ++ s.name) ::
      .text ("     ID: " ++ s.id) ::
      .text ("     Updated: " ++ s.updatedAt) :: sketchLines (i + 1) rest

/-- Method `P5APIClient.list_user_sketches`: fetches
`{base_url}/{username}/sketches` through the bare module-level
`requests.get` — not `self._request`, so no wrapper progress or status
lines are printed — then `raise_for_status`, prints the count and the
first five summaries, and returns the full decoded list. -/
def P5APIClient.list_user_sketches (c : P5APIClient) (username : String)
    (net : TransportResult (List Sketch)) : OpResult (List Sketch) :=
  let pre := [LogLine.text ("\n📋 Listing sketches for user: " ++ username ++ "...")]
  let url := c.base_url ++ "/" ++ username ++ "/sketches"
  match net with
  | .failure m =>
      { result := .error (.requestException m), log := pre, calls := [⟨"GET", url⟩], client := c }
  | .response r =>
    match raise_for_status r with
    | .error e =>
        { result := .error e, log := pre, calls := [⟨"GET", url⟩], client := c }
    | .ok _ =>
      let sketches := r.body
      let tail :=
        if sketches.length > 5 then
          [LogLine.text ("\n  ... and " ++ toString (sketches.length - 5) ++ " more")]
        else []
      { result := .ok sketches,
        log := pre ++ [.text ("✅ Found " ++ toString sketches.length ++ " sketches")] ++
          sketchLines 1 (sketches.take 5) ++ tail,
        calls := [⟨"GET", url⟩], client := c }

/-- Fixture `TEMPLATE_BASIC`: the mouse-follow circle fixture. -/
def TEMPLATE_BASIC : SketchData :=
  { name := some "Test Sketch - Basic (Python)",
    files :=
      [{ name := "sketch.js",
         content := "function setup() \x7b\n  createCanvas(400, 400);\n\x7d\n\nfunction draw() \x7b\n  background(220);\n\n  // Draw a circle that follows the mouse\n  fill(255, 0, 0);\n  circle(mouseX, mouseY, 50);\n\n  // Display coordinates\n  fill(0);\n  textAlign(CENTER);\n  text(`x: $\x7bmouseX\x7d, y: $\x7bmouseY\x7d`, width / 2, 20);\n\x7d",
         fileType := "file" },
       { name := "index.html",
         content := "<!DOCTYPE html>\n<html lang=\"en\">\n  <head>\n    <meta charset=\"utf-8\">\n    <meta name=\"viewport\" content=\"width=device-width, initial-scale=1.0\">\n    <title>Test Sketch</title>\n    <style>\n      body \x7b\n        padding: 0;\n        margin: 0;\n      \x7d\n    </style>\n    <script src=\"https://cdnjs.cloudflare.com/ajax/libs/p5.js/1.4.0/p5.js\"></script>\n    <script src=\"sketch.js\"></script>\n  </head>\n  <body>\n  </body>\n</html>",
         fileType := "file" }] }

/-- Fixture `TEMPLATE_ANIMATION`: the rotating-rectangle fixture. -/
def TEMPLATE_ANIMATION : SketchData :=
  { name := some "Test Sketch - Animation (Python)",
    files :=
      [{ name := "sketch.js",
         content := "let angle = 0;\n\nfunction setup() \x7b\n  createCanvas(400, 400);\n\x7d\n\nfunction draw() \x7b\n  background(220);\n\n  translate(width / 2, height / 2);\n  rotate(angle);\n\n  fill(255, 0, 0);\n  rectMode(CENTER);\n  rect(0, 0, 100, 100);\n\n  angle += 0.01;\n\x7d",
         fileType := "file" },
       { name := "index.html",
         content := "<!DOCTYPE html>\n<html lang=\"en\">\n  <head>\n    <meta charset=\"utf-8\">\n    <meta name=\"viewport\" content=\"width=device-width, initial-scale=1.0\">\n    <title>Animation Test</title>\n    <style>\n      body \x7b\n        padding: 0;\n        margin: 0;\n      \x7d\n    </style>\n    <script src=\"https://cdnjs.cloudflare.com/ajax/libs/p5.js/1.4.0/p5.js\"></script>\n    <script src=\"sketch.js\"></script>\n  </head>\n  <body>\n  </body>\n</html>",
         fileType := "file" }] }

/-- The module-level configuration constants. -/
structure Config where
  SESSION_COOKIE : String
  USERNAME : String
  ACCESS_TOKEN : String
  USE_TOKEN_AUTH : Bool
deriving DecidableEq, Repr

/-- The shipped configuration: the documented placeholder values, cookie mode. -/
def defaultConfig : Config :=
  { SESSION_COOKIE := "YOUR_SESSION_COOKIE_HERE",
    USERNAME := "your_username",
    ACCESS_TOKEN := "your_personal_access_token",
    USE_TOKEN_AUTH := false }

/-- The oracle responses for the (at most) five HTTP calls the test
sequence can dispatch, one slot per call site. -/
structure NetEnv where
  accessCheck : TransportResult Unit
  createResp : TransportResult Project
  getResp : TransportResult Project
  updateResp : TransportResult Project
  listResp : TransportResult (List Sketch)

/-- The sixty-four-character run of box-drawing fill in the banner lines. -/
def bannerFill : String := String.mk (List.replicate 64 '═')

/-- The top box-drawing banner line. -/
def bannerTop : String := "╔" ++ bannerFill ++ "╗"

/-- The bottom box-drawing banner line. -/
def bannerBottom : String := "╚" ++ bannerFill ++ "╝"

/-- The `try` block of `run_tests`: authentication probe, create from
`TEMPLATE_BASIC`, fetch of `project['id']`, update with the animation files,
and — only when the global `USERNAME` is not the placeholder — the public
listing.  The first exception aborts the rest; the success banner prints at
the end of the block. -/
def run_tests_body (cfg : Config) (client : P5APIClient) (env : NetEnv) : OpResult Unit :=
  let r1 := client.test_authentication env.accessCheck
  match r1.result with
  | .error e => { result := .error e, log := r1.log, calls := r1.calls, client := r1.client }
  | .ok _ =>
    let r2 := r1.client.create_sketch TEMPLATE_BASIC env.createResp
    match r2.result with
    | .error e =>
        { result := .error e, log := r1.log ++ r2.log, calls := r1.calls ++ r2.calls,
          client := r2.client }
    | .ok project =>
      match project.id with
      | none =>
          { result := .error (.keyError "id"), log := r1.log ++ r2.log,
            calls := r1.calls ++ r2.calls, client := r2.client }
      | some pid =>
        let r3 := r2.client.get_project pid env.getResp
        match r3.result with
        | .error e =>
            { result := .error e, log := r1.log ++ r2.log ++ r3.log,
              calls := r1.calls ++ r2.calls ++ r3.calls, client := r3.client }
        | .ok _ =>
          let updates : SketchData :=
            { name := some "Test Sketch - Updated (Python)", files := TEMPLATE_ANIMATION.files }
          let r4 := r3.client.update_sketch pid updates env.updateResp
          match r4.result with
          | .error e =>
              { result := .error e, log := r1.log ++ r2.log ++ r3.log ++ r4.log,
                calls := r1.calls ++ r2.calls ++ r3.calls ++ r4.calls, client := r4.client }
          | .ok _ =>
            let done :=
              [LogLine.text ("\n" ++ bannerTop),
               .text "║    ✅ All tests completed successfully!                        ║",
               .text bannerBottom]
            if cfg.USERNAME ≠ "your_username" then
              let r5 := r4.client.list_user_sketches cfg.USERNAME env.listResp
              match r5.result with
              | .error e =>
                  { result := .error e, log := r1.log ++ r2.log ++ r3.log ++ r4.log ++ r5.log,
                    calls := r1.calls ++ r2.calls ++ r3.calls ++ r4.calls ++ r5.calls,
                    client := r5.client }
              | .ok _ =>
                  { result := .ok (),
                    log := r1.log ++ r2.log ++ r3.log ++ r4.log ++ r5.log ++ done,
                    calls := r1.calls ++ r2.calls ++ r3.calls ++ r4.calls ++ r5.calls,
                    client := r5.client }
            else
              { result := .ok (), log := r1.log ++ r2.log ++ r3.log ++ r4.log ++ done,
                calls := r1.calls ++ r2.calls ++ r3.calls ++ r4.calls, client := r4.client }

/-- The outcome of a driver function: `exit = some code` when `sys.exit`
was called, plus everything printed and every HTTP call dispatched. -/
structure RunOutcome where
  exit : Option Nat
  log : List LogLine
  calls : List NetCall
deriving Repr

/-- The four failure-handler lines of `run_tests` for an exception `e`. -/
def failureLines (e : PyError) : List LogLine :=
  [.text ("\n" ++ bannerTop),
   .text "║    ❌ Tests failed                                             ║",
   .text bannerBottom,
   .text ("\nError details: " ++ e.message)]

/-- The three suite-header lines printed at the top of `run_tests`. -/
def suiteHeader : List LogLine :=
  [.text bannerTop,
   .text "║    p5.js Web Editor API - Upload Test Suite (Python)          ║",
   .text bannerBottom]

/-- Driver `run_tests`: prints the suite header, runs the `try` block, and on any
exception prints the failure banner with the error's text and calls
`sys.exit(1)`. -/
def run_tests (cfg : Config) (client : P5APIClient) (env : NetEnv) : RunOutcome :=
  match (run_tests_body cfg client env).result with
  | .ok _ =>
      { exit := none, log := suiteHeader ++ (run_tests_body cfg client env).log,
        calls := (run_tests_body cfg client env).calls }
  | .error e =>
      { exit := some 1,
        log := suiteHeader ++ (run_tests_body cfg client env).log ++ failureLines e,
        calls := (run_tests_body cfg client env).calls }

/-- Validator `validate_config`: rejects the documented placeholder credentials of the
active mode with instructions and `sys.exit(1)`; otherwise prints that the
configuration is valid. -/
def validate_config (cfg : Config) : Option Nat × List LogLine :=
  let pre := [LogLine.text "🔧 Validating configuration..."]
  if !cfg.USE_TOKEN_AUTH && (cfg.SESSION_COOKIE == "YOUR_SESSION_COOKIE_HERE") then
    (some 1, pre ++
      [.text "\n❌ ERROR: SESSION_COOKIE not configured!",
       .text "\n📖 Instructions:",
       .text "1. Log into editor.p5js.org in your browser",
       .text "2. Open DevTools (F12) → Application → Cookies",
       .text "3. Copy the value of \"connect.sid\" cookie",
       .text "4. Paste it in this script as SESSION_COOKIE",
       .text "\nOR set USE_TOKEN_AUTH = True and configure token credentials\n"])
  else if cfg.USE_TOKEN_AUTH &&
      ((cfg.USERNAME == "your_username") || (cfg.ACCESS_TOKEN == "your_personal_access_token")) then
    (some 1, pre ++
      [.text "\n❌ ERROR: Token credentials not configured!",
       .text "\n📖 Instructions:",
       .text "1. Log into editor.p5js.org",
       .text "2. Go to Account Settings",
       .text "3. Generate a Personal Access Token",
       .text "4. Set USERNAME and ACCESS_TOKEN in this script",
       .text "\nOR set USE_TOKEN_AUTH = False and use session cookie instead\n"])
  else
    (none, pre ++ [.text "✅ Configuration valid\n"])

/-- The result of a full process run: the exit status (0 when `main` falls
through normally), the console output, and the dispatched HTTP calls. -/
structure MainResult where
  exitCode : Nat
  log : List LogLine
  calls : List NetCall
deriving Repr

/-- The client `main` constructs for the configured auth mode (with its
constructor output). -/
def mainClient (cfg : Config) : P5APIClient × List LogLine :=
  if cfg.USE_TOKEN_AUTH then
    P5APIClient.init none (some cfg.USERNAME) (some cfg.ACCESS_TOKEN)
  else
    P5APIClient.init (some cfg.SESSION_COOKIE) none none

/-- Entry point `main`: the `requests` import check (modelled as succeeding), then
`validate_config` — which exits before any client exists — then client
construction in the configured mode and `run_tests`. -/
def main (cfg : Config) (env : NetEnv) : MainResult :=
  match (validate_config cfg).1 with
  | some code => { exitCode := code, log := (validate_config cfg).2, calls := [] }
  | none =>
    let built := mainClient cfg
    let r := run_tests cfg built.1 env
    { exitCode := r.exit.getD 0, log := (validate_config cfg).2 ++ built.2 ++ r.log,
      calls := r.calls }

/-!  Concrete fixtures used by the witness and counterexample theorems. -/

/-- A client built with no credentials at all. -/
def clientNoAuth : P5APIClient := (P5APIClient.init none none none).1

/-- A client built in cookie mode from a configured (non-placeholder) cookie. -/
def clientCookie : P5APIClient := (P5APIClient.init (some "s3cr3t-cookie") none none).1

/-- A delivered 404 on the access-check probe. -/
def resp404 : Response Unit :=
  { status := 404, reason := "Not Found",
    url := "https://editor.p5js.org/api/auth/access-check", body := (), setCookies := [] }

/-- A server-side project record. -/
def projectAbc : Project :=
  { id := some "abc", name := some "Test Sketch - Basic (Python)",
    owner := some { username := some "alice" }, user := none,
    createdAt := some "2026-01-01T00:00:00.000Z" }

/-- A delivered 304 Not Modified carrying a project body. -/
def resp304 : Response Project :=
  { status := 304, reason := "Not Modified",
    url := "https://editor.p5js.org/api/projects/abc", body := projectAbc,
    setCookies := [] }

/-- A delivered 400 Bad Request carrying a project body. -/
def resp400P : Response Project :=
  { status := 400, reason := "Bad Request",
    url := "https://editor.p5js.org/api/projects", body := projectAbc,
    setCookies := [] }

/-- A delivered 500 on a body-less call. -/
def resp500U : Response Unit :=
  { status := 500, reason := "Internal Server Error",
    url := "https://editor.p5js.org/api/projects/abc", body := (), setCookies := [] }

/-- A delivered 404 on the public listing endpoint. -/
def respList404 : Response (List Sketch) :=
  { status := 404, reason := "Not Found",
    url := "https://editor.p5js.org/api/alice/sketches", body := [], setCookies := [] }

/-- A successful listing of six sketches (more than the five displayed). -/
def respList6 : Response (List Sketch) :=
  { status := 200, reason := "OK",
    url := "https://editor.p5js.org/api/alice/sketches",
    body :=
      [⟨"s1", "i1", "t1"⟩, ⟨"s2", "i2", "t2"⟩, ⟨"s3", "i3", "t3"⟩,
       ⟨"s4", "i4", "t4"⟩, ⟨"s5", "i5", "t5"⟩, ⟨"s6", "i6", "t6"⟩],
    setCookies := [] }

/-- A payload whose dict has no `"name"` key. -/
def sdNoName : SketchData := { name := none, files := [] }

/-- A successful response whose `Set-Cookie` header rotates the session
cookie. -/
def respSetCookie : Response Project :=
  { status := 200, reason := "OK",
    url := "https://editor.p5js.org/api/projects/abc", body := projectAbc,
    setCookies := [("connect.sid", "rotated-by-server", "editor.p5js.org")] }

/-- A cookie-mode configuration with a configured cookie and the other
constants left at their placeholders. -/
def cfgCookieValid : Config :=
  { SESSION_COOKIE := "s3cr3t-cookie", USERNAME := "your_username",
    ACCESS_TOKEN := "your_personal_access_token", USE_TOKEN_AUTH := false }

/-- An environment in which every dispatch fails at the transport level. -/
def envAllFail : NetEnv :=
  { accessCheck := .failure "Connection refused",
    createResp := .failure "Connection refused",
    getResp := .failure "Connection refused",
    updateResp := .failure "Connection refused",
    listResp := .failure "Connection refused" }

/-- An environment in which every call succeeds. -/
def envAllOk : NetEnv :=
  { accessCheck :=
      .response ⟨200, "OK", "https://editor.p5js.org/api/auth/access-check", (), []⟩,
    createResp :=
      .response ⟨201, "Created", "https://editor.p5js.org/api/projects", projectAbc, []⟩,
    getResp :=
      .response ⟨200, "OK", "https://editor.p5js.org/api/projects/abc", projectAbc, []⟩,
    updateResp :=
      .response ⟨200, "OK", "https://editor.p5js.org/api/projects/abc", projectAbc, []⟩,
    listResp := .response respList6 }

/-- The log shape of one wrapper-based call on a delivered response: exactly
one progress line with the given method and endpoint, immediately followed by
exactly one outcome line with the delivered status and reason, and no other
wrapper line anywhere in the output. -/
def wrapperFraming (log : List LogLine) (method endpoint : String)
    (status : Nat) (reason : String) : Prop :=
  ∃ pre post,
    log = pre ++ [.requestLine method endpoint, .statusLine status reason] ++ post ∧
    pre.countP LogLine.isWrapper = 0 ∧
    post.countP LogLine.isWrapper = 0

/-- The log shape of one wrapper-based call on a transport failure: exactly
one progress line with the given method and endpoint, immediately followed by
exactly one error-detail outcome line, and no other wrapper line anywhere in
the output. -/
def wrapperFailFraming (log : List LogLine) (method endpoint msg : String) : Prop :=
  ∃ pre post,
    log = pre ++ [.requestLine method endpoint,
      .requestFailedLine ("Request failed: " ++ msg)] ++ post ∧
    pre.countP LogLine.isWrapper = 0 ∧
    post.countP LogLine.isWrapper = 0

theorem raise_for_status_error {β : Type} (r : Response β)
    (h : 400 ≤ r.status ∧ r.status < 600) :
    raise_for_status r = .error (.httpError r.status r.reason r.url) := by
  unfold raise_for_status
  rcases h with ⟨h1, h2⟩
  by_cases h5 : r.status < 500
  · rw [if_pos ⟨h1, h5⟩]
  · rw [if_neg (fun hh => h5 hh.2), if_pos ⟨by omega, h2⟩]

theorem raise_for_status_ok {β : Type} (r : Response β) (h : r.status < 400) :
    raise_for_status r = .ok () := by
  unfold raise_for_status
  rw [if_neg (fun hh => by omega), if_neg (fun hh => by omega)]

/-- C1: the code at the claim's failing input: a delivered 404 on the
access-check probe makes `test_authentication` return `False` — the
auth-failure outcome — not the `None` "unknown" outcome the claim (and the
script's own `except HTTPError` handler) intends; indeed no network outcome
whatsoever can produce `None`, because `Session.request` returns non-2xx
responses instead of raising the `HTTPError` that handler waits for. -/
theorem c1_access_check_404_returns_false :
    (clientNoAuth.test_authentication (.response resp404)).result = .ok (some false) ∧
    ∀ (c : P5APIClient) (net : TransportResult Unit),
      (c.test_authentication net).result ≠ .ok none := by
  refine ⟨rfl, ?_⟩
  intro c net
  cases net with
  | response r =>
      simp only [P5APIClient.test_authentication, P5APIClient.request]
      split <;> simp
  | failure m =>
      simp [P5APIClient.test_authentication, P5APIClient.request]

/-- C2 is false as stated: a delivered 304 Not Modified — a non-2xx status —
does not raise: `get_project` returns the decoded body, because
`raise_for_status` raises only for statuses 400–599. -/
theorem c2_counterexample_304_does_not_raise :
    (clientCookie.get_project "abc" (.response resp304)).result = .ok projectAbc := rfl

/-- C2 (amended): for every operation other than the access-check probe
(create-sketch, get-project, update-sketch, delete-sketch,
list-user-sketches), every delivered response with a 4xx or 5xx status — the
statuses `raise_for_status` treats as errors; 1xx/3xx responses pass through
undetected — results in a raised `HTTPError` carrying the response's status
code and reason text. -/
theorem c2_amended_4xx_5xx_raise (c : P5APIClient) (sd : SketchData)
    (nm pid user : String) (rp rg ru : Response Project) (rd : Response Unit)
    (rl : Response (List Sketch)) (hnm : sd.name = some nm)
    (hp : 400 ≤ rp.status ∧ rp.status < 600) (hg : 400 ≤ rg.status ∧ rg.status < 600)
    (hu : 400 ≤ ru.status ∧ ru.status < 600) (hd : 400 ≤ rd.status ∧ rd.status < 600)
    (hl : 400 ≤ rl.status ∧ rl.status < 600) :
    (c.create_sketch sd (.response rp)).result
        = .error (.httpError rp.status rp.reason rp.url) ∧
    (c.get_project pid (.response rg)).result
        = .error (.httpError rg.status rg.reason rg.url) ∧
    (c.update_sketch pid sd (.response ru)).result
        = .error (.httpError ru.status ru.reason ru.url) ∧
    (c.delete_sketch pid (.response rd)).result
        = .error (.httpError rd.status rd.reason rd.url) ∧
    (c.list_user_sketches user (.response rl)).result
        = .error (.httpError rl.status rl.reason rl.url) := by
  refine ⟨?_, ?_, ?_, ?_, ?_⟩
  · simp [P5APIClient.create_sketch, hnm, P5APIClient.request, raise_for_status_error rp hp]
  · simp [P5APIClient.get_project, P5APIClient.request, raise_for_status_error rg hg]
  · simp [P5APIClient.update_sketch, P5APIClient.request, raise_for_status_error ru hu]
  · simp [P5APIClient.delete_sketch, P5APIClient.request, raise_for_status_error rd hd]
  · simp [P5APIClient.list_user_sketches, raise_for_status_error rl hl]

/-- Witness for C2 (amended) at concrete 4xx/5xx responses. -/
theorem c2_amended_witness :
    (clientCookie.create_sketch TEMPLATE_BASIC (.response resp400P)).result
        = .error (.httpError 400 "Bad Request" "https://editor.p5js.org/api/projects") ∧
    (clientCookie.get_project "abc" (.response resp400P)).result
        = .error (.httpError 400 "Bad Request" "https://editor.p5js.org/api/projects") ∧
    (clientCookie.update_sketch "abc" TEMPLATE_BASIC (.response resp400P)).result
        = .error (.httpError 400 "Bad Request" "https://editor.p5js.org/api/projects") ∧
    (clientCookie.delete_sketch "abc" (.response resp500U)).result
        = .error (.httpError 500 "Internal Server Error"
            "https://editor.p5js.org/api/projects/abc") ∧
    (clientCookie.list_user_sketches "alice" (.response respList404)).result
        = .error (.httpError 404 "Not Found"
            "https://editor.p5js.org/api/alice/sketches") :=
  c2_amended_4xx_5xx_raise clientCookie TEMPLATE_BASIC "Test Sketch - Basic (Python)"
    "abc" "alice" resp400P resp400P resp400P resp500U respList404 rfl
    (by decide) (by decide) (by decide) (by decide) (by decide)

/-- C3: a create-sketch call with a payload missing a name, or with zero
files when the server rejects the submission with an error status, never
succeeds silently: the call raises (a `KeyError` before dispatch for the
missing name; the `raise_for_status` `HTTPError` for the server's
rejection). -/
theorem c3_invalid_payload_not_silent (c : P5APIClient) (sd : SketchData)
    (r : Response Project) (hbad : sd.name = none ∨ sd.files = [])
    (hrej : 400 ≤ r.status ∧ r.status < 600) :
    ∃ e, (c.create_sketch sd (.response r)).result = .error e := by
  cases hname : sd.name with
  | none => exact ⟨.keyError "name", by simp [P5APIClient.create_sketch, hname]⟩
  | some nm =>
      exact ⟨.httpError r.status r.reason r.url, by
        simp [P5APIClient.create_sketch, hname, P5APIClient.request,
          raise_for_status_error r hrej]⟩

/-- Witness for C3: the name-less payload against a 400 rejection. -/
theorem c3_witness :
    ∃ e, (clientCookie.create_sketch sdNoName (.response resp400P)).result = .error e :=
  c3_invalid_payload_not_silent clientCookie sdNoName resp400P (Or.inl rfl) (by decide)

theorem validate_config_rejects (cfg : Config)
    (h : (cfg.USE_TOKEN_AUTH = false ∧ cfg.SESSION_COOKIE = "YOUR_SESSION_COOKIE_HERE") ∨
         (cfg.USE_TOKEN_AUTH = true ∧
           (cfg.USERNAME = "your_username" ∨
             cfg.ACCESS_TOKEN = "your_personal_access_token"))) :
    (validate_config cfg).1 = some 1 := by
  unfold validate_config
  rcases h with ⟨ht, hc⟩ | ⟨ht, hu | ha⟩
  · simp [ht, hc]
  · simp [ht, hu]
  · simp [ht, ha]

/-- C4: whenever the active mode still holds its documented placeholder
credential (the placeholder cookie in cookie mode; the placeholder username
or token in token mode), the configuration validator rejects the run, the
process exits with status 1, and no HTTP call is ever dispatched. -/
theorem c4_placeholder_config_exits_early (cfg : Config) (env : NetEnv)
    (h : (cfg.USE_TOKEN_AUTH = false ∧ cfg.SESSION_COOKIE = "YOUR_SESSION_COOKIE_HERE") ∨
         (cfg.USE_TOKEN_AUTH = true ∧
           (cfg.USERNAME = "your_username" ∨
             cfg.ACCESS_TOKEN = "your_personal_access_token"))) :
    (main cfg env).exitCode = 1 ∧ (main cfg env).calls = [] := by
  have h1 := validate_config_rejects cfg h
  unfold main
  rw [h1]
  exact ⟨rfl, rfl⟩

/-- Witness for C4: the shipped placeholder configuration. -/
theorem c4_witness :
    (main defaultConfig envAllFail).exitCode = 1 ∧ (main defaultConfig envAllFail).calls = [] :=
  c4_placeholder_config_exits_early defaultConfig envAllFail (Or.inl ⟨rfl, rfl⟩)

/-- C5: client construction sets exactly the specified headers and cookies
for each of the three credential configurations and nothing else: always
`Content-Type: application/json` and the fixed user agent; cookie mode adds
only the `connect.sid` cookie scoped to `editor.p5js.org`; token mode adds
only `Authorization: Basic base64(username:token)`; with no credential
nothing is added and the constructor prints a warning instead of failing. -/
theorem c5_construction_exact_headers (s u t : String)
    (hs : s ≠ "") (hu : u ≠ "") (ht : t ≠ "") :
    ((P5APIClient.init (some s) none none).1.session =
        { headers := baseHeaders, cookies := [("connect.sid", s, "editor.p5js.org")] } ∧
      (P5APIClient.init (some s) none none).2 =
        [.text "🔑 Using Session Cookie Authentication"]) ∧
    ((P5APIClient.init none (some u) (some t)).1.session =
        { headers := baseHeaders ++ [("Authorization", "Basic " ++ b64encode (u ++ ":" ++ t))],
          cookies := [] } ∧
      (P5APIClient.init none (some u) (some t)).2 = [.text "🔑 Using Token Authentication"]) ∧
    ((P5APIClient.init none none none).1.session =
        { headers := baseHeaders, cookies := [] } ∧
      (P5APIClient.init none none none).2 = [.text "⚠️  No authentication configured"]) := by
  refine ⟨⟨?_, ?_⟩, ⟨?_, ?_⟩, ⟨?_, ?_⟩⟩ <;>
    simp [P5APIClient.init, pyTruthy, hs, hu, ht]

/-- Witness for C5 at concrete credentials. -/
theorem c5_witness :
    ((P5APIClient.init (some "s3cr3t-cookie") none none).1.session =
        { headers := baseHeaders,
          cookies := [("connect.sid", "s3cr3t-cookie", "editor.p5js.org")] } ∧
      (P5APIClient.init (some "s3cr3t-cookie") none none).2 =
        [.text "🔑 Using Session Cookie Authentication"]) ∧
    ((P5APIClient.init none (some "alice") (some "tok")).1.session =
        { headers := baseHeaders ++
            [("Authorization", "Basic " ++ b64encode ("alice" ++ ":" ++ "tok"))],
          cookies := [] } ∧
      (P5APIClient.init none (some "alice") (some "tok")).2 =
        [.text "🔑 Using Token Authentication"]) ∧
    ((P5APIClient.init none none none).1.session =
        { headers := baseHeaders, cookies := [] } ∧
      (P5APIClient.init none none none).2 = [.text "⚠️  No authentication configured"]) :=
  c5_construction_exact_headers "s3cr3t-cookie" "alice" "tok"
    (by decide) (by decide) (by decide)

/-- C6 is false as stated: `list_user_sketches` dispatches through the bare
module-level `requests.get`, not the `_request` wrapper, so its output —
here a successful listing of six sketches — contains no progress line naming
the method and endpoint and no outcome line with the status code and reason
at all. -/
theorem c6_counterexample_list_has_no_wrapper_lines :
    (clientCookie.list_user_sketches "alice" (.response respList6)).log.countP
        LogLine.isRequest = 0 ∧
    (clientCookie.list_user_sketches "alice" (.response respList6)).log.countP
        LogLine.isStatus = 0 :=
  ⟨rfl, rfl⟩

theorem pyUpper_GET : pyUpper "GET" = "GET" := rfl

theorem pyUpper_POST : pyUpper "POST" = "POST" := rfl

theorem pyUpper_PUT : pyUpper "PUT" = "PUT" := rfl

theorem pyUpper_DELETE : pyUpper "DELETE" = "DELETE" := rfl

theorem framing_test_authentication (c : P5APIClient) (ra : Response Unit) :
    wrapperFraming (c.test_authentication (.response ra)).log "GET" "/auth/access-check"
      ra.status ra.reason := by
  unfold wrapperFraming
  by_cases h : (ra.status == 200) = true
  · simp only [P5APIClient.test_authentication, P5APIClient.request, h, if_true, pyUpper_GET]
    exact ⟨[.text "\n🔍 Testing Authentication..."],
      [.text "✅ Authentication successful!"], by simp, rfl, rfl⟩
  · simp only [P5APIClient.test_authentication, P5APIClient.request, h, if_false,
      Bool.false_eq_true, pyUpper_GET]
    exact ⟨[.text "\n🔍 Testing Authentication..."],
      [.text "❌ Authentication failed"], by simp, rfl, rfl⟩

theorem framing_create_sketch (c : P5APIClient) (sd : SketchData) (nm : String)
    (rp : Response Project) (hnm : sd.name = some nm) :
    wrapperFraming (c.create_sketch sd (.response rp)).log "POST" "/projects"
      rp.status rp.reason := by
  unfold wrapperFraming
  simp only [P5APIClient.create_sketch, hnm, P5APIClient.request, pyUpper_POST]
  rcases hr : raise_for_status rp with e | u
  · simp only [hr]
    exact ⟨[.text ("\n📝 Creating sketch: \"" ++ nm ++ "\"...")], [], by simp, rfl, rfl⟩
  · simp only [hr]
    cases hid : rp.body.id with
    | none =>
        exact ⟨[.text ("\n📝 Creating sketch: \"" ++ nm ++ "\"...")],
          [.text "✅ Sketch created successfully!", .text "\n📊 Project Details:",
           .text ("  ID: " ++ pyStr none), .text ("  Name: " ++ pyStr rp.body.name),
           .text ("  Owner: " ++ pyStr rp.body.displayOwner),
           .text ("  Created: " ++ pyStr rp.body.createdAt)],
          by simp, rfl,
          by simp [LogLine.isWrapper, LogLine.isRequest, LogLine.isStatus, LogLine.isFailDetail]⟩
    | some pid =>
        exact ⟨[.text ("\n📝 Creating sketch: \"" ++ nm ++ "\"...")],
          [.text "✅ Sketch created successfully!", .text "\n📊 Project Details:",
           .text ("  ID: " ++ pyStr (some pid)), .text ("  Name: " ++ pyStr rp.body.name),
           .text ("  Owner: " ++ pyStr rp.body.displayOwner),
           .text ("  Created: " ++ pyStr rp.body.createdAt),
           .text "\n🔗 Sketch URL:",
           .text ("   https://editor.p5js.org/" ++ pyStr rp.body.displayOwner ++
             "/sketches/" ++ pid),
           .text "\n🎨 Full View:",
           .text ("   https://editor.p5js.org/" ++ pyStr rp.body.displayOwner ++
             "/full/" ++ pid)],
          by simp, rfl,
          by simp [LogLine.isWrapper, LogLine.isRequest, LogLine.isStatus, LogLine.isFailDetail]⟩

theorem framing_get_project (c : P5APIClient) (pid : String) (rg : Response Project) :
    wrapperFraming (c.get_project pid (.response rg)).log "GET" ("/projects/" ++ pid)
      rg.status rg.reason := by
  unfold wrapperFraming
  simp only [P5APIClient.get_project, P5APIClient.request, pyUpper_GET]
  rcases hr : raise_for_status rg with e | u <;> simp only [hr]
  · exact ⟨[.text ("\n🔍 Fetching project " ++ pid ++ "...")], [], by simp, rfl, rfl⟩
  · exact ⟨[.text ("\n🔍 Fetching project " ++ pid ++ "...")],
      [.text "✅ Project fetched successfully"], by simp, rfl, rfl⟩

theorem framing_update_sketch (c : P5APIClient) (pid : String) (sd : SketchData)
    (ru : Response Project) :
    wrapperFraming (c.update_sketch pid sd (.response ru)).log "PUT" ("/projects/" ++ pid)
      ru.status ru.reason := by
  unfold wrapperFraming
  simp only [P5APIClient.update_sketch, P5APIClient.request, pyUpper_PUT]
  rcases hr : raise_for_status ru with e | u <;> simp only [hr]
  · exact ⟨[.text ("\n✏️  Updating sketch " ++ pid ++ "...")], [], by simp, rfl, rfl⟩
  · exact ⟨[.text ("\n✏️  Updating sketch " ++ pid ++ "...")],
      [.text "✅ Sketch updated successfully"], by simp, rfl, rfl⟩

theorem framing_delete_sketch (c : P5APIClient) (pid : String) (rd : Response Unit) :
    wrapperFraming (c.delete_sketch pid (.response rd)).log "DELETE" ("/projects/" ++ pid)
      rd.status rd.reason := by
  unfold wrapperFraming
  simp only [P5APIClient.delete_sketch, P5APIClient.request, pyUpper_DELETE]
  rcases hr : raise_for_status rd with e | u <;> simp only [hr]
  · exact ⟨[.text ("\n🗑️  Deleting sketch " ++ pid ++ "...")], [], by simp, rfl, rfl⟩
  · exact ⟨[.text ("\n🗑️  Deleting sketch " ++ pid ++ "...")],
      [.text "✅ Sketch deleted successfully"], by simp, rfl, rfl⟩

theorem sketchLines_no_wrapper (i : Nat) (l : List Sketch) :
    (sketchLines i l).countP LogLine.isWrapper = 0 := by
  induction l generalizing i with
  | nil => simp [sketchLines]
  | cons s rest ih =>
      simp [sketchLines, LogLine.isWrapper, LogLine.isRequest, LogLine.isStatus,
        LogLine.isFailDetail, ih (i + 1)]

theorem list_user_sketches_no_wrapper (c : P5APIClient) (user : String)
    (nl : TransportResult (List Sketch)) :
    (c.list_user_sketches user nl).log.countP LogLine.isWrapper = 0 ∧
    (c.list_user_sketches user nl).log.head? =
      some (.text ("\n📋 Listing sketches for user: " ++ user ++ "...")) := by
  cases nl with
  | failure m => exact ⟨rfl, rfl⟩
  | response rl =>
      simp only [P5APIClient.list_user_sketches]
      rcases hr : raise_for_status rl with e | u <;> simp only [hr]
      · exact ⟨rfl, rfl⟩
      · refine ⟨?_, ?_⟩ <;>
          simp [List.countP_append, LogLine.isWrapper, LogLine.isRequest,
            LogLine.isStatus, LogLine.isFailDetail,
            sketchLines_no_wrapper 1 (rl.body.take 5)]

theorem failFraming_test_authentication (c : P5APIClient) (m : String) :
    wrapperFailFraming (c.test_authentication (.failure m)).log
      "GET" "/auth/access-check" m := by
  unfold wrapperFailFraming
  simp only [P5APIClient.test_authentication, P5APIClient.request, pyUpper_GET]
  exact ⟨[.text "\n🔍 Testing Authentication..."], [], by simp, rfl, rfl⟩

theorem failFraming_create_sketch (c : P5APIClient) (sd : SketchData) (nm m : String)
    (hnm : sd.name = some nm) :
    wrapperFailFraming (c.create_sketch sd (.failure m)).log "POST" "/projects" m := by
  unfold wrapperFailFraming
  simp only [P5APIClient.create_sketch, hnm, P5APIClient.request, pyUpper_POST]
  exact ⟨[.text ("\n📝 Creating sketch: \"" ++ nm ++ "\"...")], [], by simp, rfl, rfl⟩

theorem failFraming_get_project (c : P5APIClient) (pid m : String) :
    wrapperFailFraming (c.get_project pid (.failure m)).log
      "GET" ("/projects/" ++ pid) m := by
  unfold wrapperFailFraming
  simp only [P5APIClient.get_project, P5APIClient.request, pyUpper_GET]
  exact ⟨[.text ("\n🔍 Fetching project " ++ pid ++ "...")], [], by simp, rfl, rfl⟩

theorem failFraming_update_sketch (c : P5APIClient) (pid m : String) (sd : SketchData) :
    wrapperFailFraming (c.update_sketch pid sd (.failure m)).log
      "PUT" ("/projects/" ++ pid) m := by
  unfold wrapperFailFraming
  simp only [P5APIClient.update_sketch, P5APIClient.request, pyUpper_PUT]
  exact ⟨[.text ("\n✏️  Updating sketch " ++ pid ++ "...")], [], by simp, rfl, rfl⟩

theorem failFraming_delete_sketch (c : P5APIClient) (pid m : String) :
    wrapperFailFraming (c.delete_sketch pid (.failure m)).log
      "DELETE" ("/projects/" ++ pid) m := by
  unfold wrapperFailFraming
  simp only [P5APIClient.delete_sketch, P5APIClient.request, pyUpper_DELETE]
  exact ⟨[.text ("\n🗑️  Deleting sketch " ++ pid ++ "...")], [], by simp, rfl, rfl⟩

/-- C6 (amended): each of check-access, create-sketch, get-project,
update-sketch and delete-sketch writes exactly one progress line naming the
method and endpoint before the HTTP dispatch and exactly one outcome line
after it — the status code and reason for a delivered response, the error
detail for a transport failure; list-user-sketches, which bypasses the
request wrapper, instead writes a listing line naming the user before
dispatch and never writes a method/endpoint progress line or a
status/error-detail outcome line. -/
theorem c6_amended_framing (c : P5APIClient) (sd : SketchData) (nm pid user m : String)
    (ra rd : Response Unit) (rp rg ru : Response Project)
    (nl : TransportResult (List Sketch)) (hnm : sd.name = some nm) :
    (wrapperFraming (c.test_authentication (.response ra)).log "GET" "/auth/access-check"
       ra.status ra.reason ∧
     wrapperFailFraming (c.test_authentication (.failure m)).log "GET"
       "/auth/access-check" m) ∧
    (wrapperFraming (c.create_sketch sd (.response rp)).log "POST" "/projects"
       rp.status rp.reason ∧
     wrapperFailFraming (c.create_sketch sd (.failure m)).log "POST" "/projects" m) ∧
    (wrapperFraming (c.get_project pid (.response rg)).log "GET" ("/projects/" ++ pid)
       rg.status rg.reason ∧
     wrapperFailFraming (c.get_project pid (.failure m)).log "GET"
       ("/projects/" ++ pid) m) ∧
    (wrapperFraming (c.update_sketch pid sd (.response ru)).log "PUT" ("/projects/" ++ pid)
       ru.status ru.reason ∧
     wrapperFailFraming (c.update_sketch pid sd (.failure m)).log "PUT"
       ("/projects/" ++ pid) m) ∧
    (wrapperFraming (c.delete_sketch pid (.response rd)).log "DELETE" ("/projects/" ++ pid)
       rd.status rd.reason ∧
     wrapperFailFraming (c.delete_sketch pid (.failure m)).log "DELETE"
       ("/projects/" ++ pid) m) ∧
    ((c.list_user_sketches user nl).log.countP LogLine.isWrapper = 0 ∧
     (c.list_user_sketches user nl).log.head? =
       some (.text ("\n📋 Listing sketches for user: " ++ user ++ "..."))) :=
  ⟨⟨framing_test_authentication c ra, failFraming_test_authentication c m⟩,
   ⟨framing_create_sketch c sd nm rp hnm, failFraming_create_sketch c sd nm m hnm⟩,
   ⟨framing_get_project c pid rg, failFraming_get_project c pid m⟩,
   ⟨framing_update_sketch c pid sd ru, failFraming_update_sketch c pid m sd⟩,
   ⟨framing_delete_sketch c pid rd, failFraming_delete_sketch c pid m⟩,
   list_user_sketches_no_wrapper c user nl⟩

/-- Witness for C6 (amended) at concrete inputs, covering both delivered
responses and transport failures. -/
theorem c6_amended_witness :
    (wrapperFraming (clientCookie.test_authentication (.response resp404)).log "GET"
       "/auth/access-check" 404 "Not Found" ∧
     wrapperFailFraming (clientCookie.test_authentication (.failure "Connection refused")).log
       "GET" "/auth/access-check" "Connection refused") ∧
    (wrapperFraming (clientCookie.create_sketch TEMPLATE_BASIC (.response resp400P)).log
       "POST" "/projects" 400 "Bad Request" ∧
     wrapperFailFraming
       (clientCookie.create_sketch TEMPLATE_BASIC (.failure "Connection refused")).log
       "POST" "/projects" "Connection refused") ∧
    (wrapperFraming (clientCookie.get_project "abc" (.response resp400P)).log "GET"
       ("/projects/" ++ "abc") 400 "Bad Request" ∧
     wrapperFailFraming (clientCookie.get_project "abc" (.failure "Connection refused")).log
       "GET" ("/projects/" ++ "abc") "Connection refused") ∧
    (wrapperFraming (clientCookie.update_sketch "abc" TEMPLATE_BASIC (.response resp400P)).log
       "PUT" ("/projects/" ++ "abc") 400 "Bad Request" ∧
     wrapperFailFraming
       (clientCookie.update_sketch "abc" TEMPLATE_BASIC (.failure "Connection refused")).log
       "PUT" ("/projects/" ++ "abc") "Connection refused") ∧
    (wrapperFraming (clientCookie.delete_sketch "abc" (.response resp500U)).log "DELETE"
       ("/projects/" ++ "abc") 500 "Internal Server Error" ∧
     wrapperFailFraming (clientCookie.delete_sketch "abc" (.failure "Connection refused")).log
       "DELETE" ("/projects/" ++ "abc") "Connection refused") ∧
    ((clientCookie.list_user_sketches "alice" (.response respList6)).log.countP
        LogLine.isWrapper = 0 ∧
     (clientCookie.list_user_sketches "alice" (.response respList6)).log.head? =
       some (.text ("\n📋 Listing sketches for user: " ++ "alice" ++ "..."))) :=
  c6_amended_framing clientCookie TEMPLATE_BASIC "Test Sketch - Basic (Python)" "abc"
    "alice" "Connection refused" resp404 resp500U resp400P resp400P resp400P
    (.response respList6) rfl

/-- C7: on a successful listing response, `list_user_sketches` returns
exactly the sequence the server returned — same elements, same order — the
first-five display truncation affecting only the printed lines, never the
returned value. -/
theorem c7_list_order_preserved (c : P5APIClient) (user : String)
    (rl : Response (List Sketch)) (h : 200 ≤ rl.status ∧ rl.status < 300) :
    (c.list_user_sketches user (.response rl)).result = .ok rl.body := by
  simp [P5APIClient.list_user_sketches, raise_for_status_ok rl (by omega)]

/-- Witness for C7: the six-sketch listing comes back whole and in order,
even though only five entries are displayed. -/
theorem c7_witness :
    (clientCookie.list_user_sketches "alice" (.response respList6)).result =
      .ok [⟨"s1", "i1", "t1"⟩, ⟨"s2", "i2", "t2"⟩, ⟨"s3", "i3", "t3"⟩,
        ⟨"s4", "i4", "t4"⟩, ⟨"s5", "i5", "t5"⟩, ⟨"s6", "i6", "t6"⟩] :=
  c7_list_order_preserved clientCookie "alice" respList6 (by decide)

theorem main_valid_eq (cfg : Config) (env : NetEnv)
    (hvalid : (validate_config cfg).1 = none) :
    main cfg env =
      { exitCode := (run_tests cfg (mainClient cfg).1 env).exit.getD 0,
        log := (validate_config cfg).2 ++ (mainClient cfg).2 ++
          (run_tests cfg (mainClient cfg).1 env).log,
        calls := (run_tests cfg (mainClient cfg).1 env).calls } := by
  unfold main
  rw [hvalid]

theorem run_tests_error_eq (cfg : Config) (client : P5APIClient) (env : NetEnv)
    (e : PyError) (he : (run_tests_body cfg client env).result = .error e) :
    run_tests cfg client env =
      { exit := some 1,
        log := suiteHeader ++ (run_tests_body cfg client env).log ++ failureLines e,
        calls := (run_tests_body cfg client env).calls } := by
  unfold run_tests
  rw [he]

theorem run_tests_ok_eq (cfg : Config) (client : P5APIClient) (env : NetEnv)
    (u : Unit) (hu : (run_tests_body cfg client env).result = .ok u) :
    run_tests cfg client env =
      { exit := none,
        log := suiteHeader ++ (run_tests_body cfg client env).log,
        calls := (run_tests_body cfg client env).calls } := by
  unfold run_tests
  rw [hu]

/-- C8: the single top-level handler of `run_tests` catches any exception
the test sequence raises, prints the failure banner and the error's text as
the final output lines, and the process exits with status 1; when the
sequence completes without an exception the process exits with status 0.
(`cfg` is assumed to pass validation so that the test sequence runs at
all.) -/
theorem c8_top_level_handler (cfg : Config) (env : NetEnv)
    (hvalid : (validate_config cfg).1 = none) :
    (∀ e, (run_tests_body cfg (mainClient cfg).1 env).result = .error e →
        (main cfg env).exitCode = 1 ∧
        (main cfg env).log =
          (validate_config cfg).2 ++ (mainClient cfg).2 ++ suiteHeader ++
            (run_tests_body cfg (mainClient cfg).1 env).log ++ failureLines e) ∧
    (∀ u, (run_tests_body cfg (mainClient cfg).1 env).result = .ok u →
        (main cfg env).exitCode = 0) := by
  constructor
  · intro e he
    rw [main_valid_eq cfg env hvalid, run_tests_error_eq cfg (mainClient cfg).1 env e he]
    exact ⟨rfl, by simp [List.append_assoc]⟩
  · intro u hu
    rw [main_valid_eq cfg env hvalid, run_tests_ok_eq cfg (mainClient cfg).1 env u hu]
    rfl

/-- Witness for C8: with a valid cookie configuration, a transport failure in
the sequence exits 1 and a fully successful sequence exits 0. -/
theorem c8_witness :
    (main cfgCookieValid envAllFail).exitCode = 1 ∧
    (main cfgCookieValid envAllOk).exitCode = 0 :=
  ⟨((c8_top_level_handler cfgCookieValid envAllFail rfl).1
      (.requestException "Connection refused") rfl).1,
   (c8_top_level_handler cfgCookieValid envAllOk rfl).2 () rfl⟩

/-- C9: when both a session cookie and a username+access-token pair are
passed to the constructor, token authentication takes precedence: the Basic
Authorization header is installed and the session cookie is never attached
(the cookie jar stays empty). -/
theorem c9_token_precedence (s u t : String) (hu : u ≠ "") (ht : t ≠ "") :
    (P5APIClient.init (some s) (some u) (some t)).1.session =
      { headers := baseHeaders ++ [("Authorization", "Basic " ++ b64encode (u ++ ":" ++ t))],
        cookies := [] } := by
  simp [P5APIClient.init, pyTruthy, hu, ht]

/-- Witness for C9: both credentials supplied, the token wins. -/
theorem c9_witness :
    (P5APIClient.init (some "s3cr3t-cookie") (some "alice") (some "tok")).1.session =
      { headers := baseHeaders ++
          [("Authorization", "Basic " ++ b64encode ("alice" ++ ":" ++ "tok"))],
        cookies := [] } :=
  c9_token_precedence "s3cr3t-cookie" "alice" "tok" (by decide) (by decide)

/-- C10 is false as stated: the session persists the `Set-Cookie` cookies of
every response delivered through it into its jar (`extract_cookies_to_jar`
in `Session.send`), so a get-project call whose response rotates the
`connect.sid` cookie changes the session cookie jar. -/
theorem c10_counterexample_set_cookie_mutates_jar :
    (clientCookie.get_project "abc" (.response respSetCookie)).client.session.cookies ≠
      clientCookie.session.cookies ∧
    (clientCookie.get_project "abc" (.response respSetCookie)).client.session.cookies =
      [("connect.sid", "rotated-by-server", "editor.p5js.org")] ∧
    clientCookie.session.cookies =
      [("connect.sid", "s3cr3t-cookie", "editor.p5js.org")] :=
  ⟨by decide, rfl, rfl⟩

/-- C10 (amended): the base url and the session's default headers are fixed
at construction and preserved by every operation; the cookie jar is likewise
preserved by every wrapper call whose network outcome delivers no
`Set-Cookie` header — the one mutation is the HTTP library persisting
delivered `Set-Cookie` cookies into the jar — and list-user-sketches, which
bypasses the session entirely, never touches it. -/
theorem c10_amended_session_preservation (c : P5APIClient) (sd : SketchData)
    (pid user : String) (na nd : TransportResult Unit) (np ng nu : TransportResult Project)
    (nl : TransportResult (List Sketch)) :
    ((c.test_authentication na).client.session.headers = c.session.headers ∧
     (c.create_sketch sd np).client.session.headers = c.session.headers ∧
     (c.get_project pid ng).client.session.headers = c.session.headers ∧
     (c.update_sketch pid sd nu).client.session.headers = c.session.headers ∧
     (c.delete_sketch pid nd).client.session.headers = c.session.headers) ∧
    ((na.setCookieFree → (c.test_authentication na).client = c) ∧
     (np.setCookieFree → (c.create_sketch sd np).client = c) ∧
     (ng.setCookieFree → (c.get_project pid ng).client = c) ∧
     (nu.setCookieFree → (c.update_sketch pid sd nu).client = c) ∧
     (nd.setCookieFree → (c.delete_sketch pid nd).client = c)) ∧
    (c.list_user_sketches user nl).client = c := by
  refine ⟨⟨?_, ?_, ?_, ?_, ?_⟩, ⟨?_, ?_, ?_, ?_, ?_⟩, ?_⟩
  · cases na with
    | response r =>
        simp only [P5APIClient.test_authentication, P5APIClient.request]
        split <;> rfl
    | failure m => rfl
  · cases hn : sd.name with
    | none => simp [P5APIClient.create_sketch, hn]
    | some nm =>
        cases np with
        | failure m => simp [P5APIClient.create_sketch, hn, P5APIClient.request]
        | response r =>
            simp only [P5APIClient.create_sketch, hn, P5APIClient.request]
            rcases hr : raise_for_status r with e | u2 <;> simp only [hr] <;>
              cases hid : r.body.id <;> rfl
  · cases ng with
    | failure m => rfl
    | response r =>
        simp only [P5APIClient.get_project, P5APIClient.request]
        rcases hr : raise_for_status r with e | u2 <;> simp [hr]
  · cases nu with
    | failure m => rfl
    | response r =>
        simp only [P5APIClient.update_sketch, P5APIClient.request]
        rcases hr : raise_for_status r with e | u2 <;> simp [hr]
  · cases nd with
    | failure m => rfl
    | response r =>
        simp only [P5APIClient.delete_sketch, P5APIClient.request]
        rcases hr : raise_for_status r with e | u2 <;> simp [hr]
  · cases na with
    | failure m => intro h; rfl
    | response r =>
        intro h
        simp only [TransportResult.setCookieFree] at h
        simp only [P5APIClient.test_authentication, P5APIClient.request, h,
          extract_cookies_to_jar, List.foldl_nil]
        split <;> rfl
  · cases hn : sd.name with
    | none => intro h; simp [P5APIClient.create_sketch, hn]
    | some nm =>
        cases np with
        | failure m => intro h; simp [P5APIClient.create_sketch, hn, P5APIClient.request]
        | response r =>
            intro h
            simp only [TransportResult.setCookieFree] at h
            simp only [P5APIClient.create_sketch, hn, P5APIClient.request, h,
              extract_cookies_to_jar, List.foldl_nil]
            rcases hr : raise_for_status r with e | u2 <;> simp only [hr] <;>
              cases hid : r.body.id <;> rfl
  · cases ng with
    | failure m => intro h; rfl
    | response r =>
        intro h
        simp only [TransportResult.setCookieFree] at h
        simp only [P5APIClient.get_project, P5APIClient.request, h,
          extract_cookies_to_jar, List.foldl_nil]
        rcases hr : raise_for_status r with e | u2 <;> simp [hr]
  · cases nu with
    | failure m => intro h; rfl
    | response r =>
        intro h
        simp only [TransportResult.setCookieFree] at h
        simp only [P5APIClient.update_sketch, P5APIClient.request, h,
          extract_cookies_to_jar, List.foldl_nil]
        rcases hr : raise_for_status r with e | u2 <;> simp [hr]
  · cases nd with
    | failure m => intro h; rfl
    | response r =>
        intro h
        simp only [TransportResult.setCookieFree] at h
        simp only [P5APIClient.delete_sketch, P5APIClient.request, h,
          extract_cookies_to_jar, List.foldl_nil]
        rcases hr : raise_for_status r with e | u2 <;> simp [hr]
  · cases nl with
    | failure m => rfl
    | response r =>
        simp only [P5APIClient.list_user_sketches]
        rcases hr : raise_for_status r with e | u2 <;> simp [hr]

/-- Witness for C10 (amended): a Set-Cookie-free response leaves the whole
session untouched, a cookie-rotating response still leaves the headers
untouched, and a listing call leaves the client untouched. -/
theorem c10_amended_witness :
    (clientCookie.get_project "abc" (.response resp304)).client = clientCookie ∧
    (clientCookie.update_sketch "abc" TEMPLATE_BASIC
        (.response respSetCookie)).client.session.headers =
      clientCookie.session.headers ∧
    (clientCookie.list_user_sketches "alice" (.response respList6)).client = clientCookie := by
  have h := c10_amended_session_preservation clientCookie TEMPLATE_BASIC "abc" "alice"
    (.response resp404) (.response resp500U) (.response resp400P) (.response resp304)
    (.response respSetCookie) (.response respList6)
  exact ⟨h.2.1.2.2.1 rfl, h.1.2.2.2.1, h.2.2⟩

end TestUpload
